import Mathlib

/-!
Shallow embedding of the position-lifecycle trading engine of the
crypto-trading repository, together with proofs of the specification
claims about it.

The embedding translates, faithfully from the Python source:
  * the risk-management policies
    (backend/core/risk_management/{base_risk,basic_risk_manager,fixed_risk,atr_risk}.py),
  * the backtest engine loop (backend/core/engine/backtest_engine.py),
  * the simulation engine update step (backend/core/engine/simulation_engine.py)
    and its metrics accumulator (backend/models/simulation.py),
  * the two signal-consensus sites (trading/simulator.py, trading/executor.py).

Python floats are modelled as rationals; bar timestamps and holding
periods are modelled as integers (minutes); exceptions are modelled with
the Except monad; the strategy object is modelled as a function from the
visible bar window to a signal record, since the engines treat it as an
opaque signal source.
-/

namespace CryptoTrading

/-- Direction of a position: the Python code uses the strings
'long' and 'short'. -/
inductive Dir
  | long
  | short
deriving DecidableEq, Repr

/-- The signal record returned by a strategy's calculate_signals:
direction (None, 'long' or 'short'), entry_price, optional volatility,
and the exit_signal flag. -/
structure Signal where
  direction : Option Dir
  entry_price : ℚ
  volatility : Option ℚ
  exit_signal : Bool
deriving DecidableEq, Repr

/-- One OHLCV row, reduced to the fields the engine loop reads:
its index timestamp (minutes) and close price. -/
structure Bar where
  time : ℤ
  close : ℚ
deriving DecidableEq, Repr

/-- The current_position dictionary built by the engines on entry. -/
structure Position where
  type : Dir
  entry_price : ℚ
  size : ℚ
  stop_loss : ℚ
  take_profit : ℚ
  entry_time : ℤ
deriving DecidableEq, Repr

/-- The Trade record (models/backtest.py) as filled in by the engines. -/
structure Trade where
  timestamp : ℤ
  position_type : Dir
  entry_price : ℚ
  exit_price : ℚ
  position_size : ℚ
  pnl : ℚ
  stop_loss : ℚ
  take_profit : ℚ
  exit_reason : String
  holding_period : ℤ
deriving DecidableEq, Repr

/-- The interface of a risk manager as consumed by the engines:
the risk_per_trade parameter plus the three operations the engine
loop calls. -/
structure RiskManager where
  risk_per_trade : ℚ
  calculate_stop_loss : ℚ → Dir → Option ℚ → ℚ
  calculate_take_profit : ℚ → Dir → ℚ → ℚ
  should_close_position : Dir → ℚ → ℚ → ℚ → ℚ → ℚ → ℤ → Bool × String

namespace BaseRiskManagement

/-- BaseRiskManagement.should_close_position (base_risk.py lines 75-110),
the default implementation inherited by FixedRiskManagement and
ATRRiskManagement: close on stop-loss or take-profit only. -/
def should_close_position (position_type : Dir)
    (entry_price current_price stop_loss take_profit unrealized_pnl : ℚ)
    (holding_time : ℤ) : Bool × String :=
  match position_type with
  | Dir.long =>
      if current_price ≤ stop_loss then (true, "stop_loss")
      else if take_profit ≤ current_price then (true, "take_profit")
      else (false, "")
  | Dir.short =>
      if stop_loss ≤ current_price then (true, "stop_loss")
      else if current_price ≤ take_profit then (true, "take_profit")
      else (false, "")

end BaseRiskManagement

namespace BasicRiskManager

/-- Parameter record of BasicRiskManager (basic_risk_manager.py).
max_holding_minutes is an integer in the source (isinstance int check);
trailing_stop_pct may be None. -/
structure Params where
  stop_loss_pct : ℚ
  risk_reward_ratio : ℚ
  max_holding_minutes : ℤ
  trailing_stop_pct : Option ℚ
  risk_per_trade : ℚ
deriving DecidableEq, Repr

/-- The default_params dictionary of BasicRiskManager. -/
def default_params : Params :=
  { stop_loss_pct := 2, risk_reward_ratio := 2, max_holding_minutes := 1440,
    trailing_stop_pct := none, risk_per_trade := 1/50 }

/-- BasicRiskManager.validate_params: true exactly when construction
succeeds (no ValueError raised). -/
def validate_params (p : Params) : Bool :=
  decide (0 < p.stop_loss_pct) &&
  decide (0 < p.risk_reward_ratio) &&
  decide (0 < p.max_holding_minutes) &&
  (match p.trailing_stop_pct with
   | none => true
   | some t => decide (0 < t)) &&
  (decide (0 < p.risk_per_trade) && decide (p.risk_per_trade < 1))

/-- BasicRiskManager.calculate_stop_loss. -/
def calculate_stop_loss (p : Params) (entry_price : ℚ) (position_type : Dir)
    (volatility : Option ℚ) : ℚ :=
  let stop_loss_ratio := p.stop_loss_pct / 100
  match position_type with
  | Dir.long => entry_price * (1 - stop_loss_ratio)
  | Dir.short => entry_price * (1 + stop_loss_ratio)

/-- BasicRiskManager.calculate_take_profit. -/
def calculate_take_profit (p : Params) (entry_price : ℚ) (position_type : Dir)
    (stop_loss : ℚ) : ℚ :=
  let stop_loss_distance := |entry_price - stop_loss|
  let take_profit_distance := stop_loss_distance * p.risk_reward_ratio
  match position_type with
  | Dir.long => entry_price + take_profit_distance
  | Dir.short => entry_price - take_profit_distance

/-- BasicRiskManager.should_close_position (basic_risk_manager.py
lines 80-134): max holding period, then stop/target, then the optional
trailing stop. -/
def should_close_position (p : Params) (position_type : Dir)
    (entry_price current_price stop_loss take_profit unrealized_pnl : ℚ)
    (holding_period : ℤ) : Bool × String :=
  if p.max_holding_minutes ≤ holding_period then (true, "max_holding_period")
  else
    match position_type with
    | Dir.long =>
        if current_price ≤ stop_loss then (true, "stop_loss")
        else if take_profit ≤ current_price then (true, "take_profit")
        else
          match p.trailing_stop_pct with
          | none => (false, "")
          | some pct =>
              let trailing_stop_ratio := pct / 100
              let max_price := max entry_price current_price
              let trailing_stop := max_price * (1 - trailing_stop_ratio)
              if current_price ≤ trailing_stop then (true, "trailing_stop")
              else (false, "")
    | Dir.short =>
        if stop_loss ≤ current_price then (true, "stop_loss")
        else if current_price ≤ take_profit then (true, "take_profit")
        else
          match p.trailing_stop_pct with
          | none => (false, "")
          | some pct =>
              let trailing_stop_ratio := pct / 100
              let min_price := min entry_price current_price
              let trailing_stop := min_price * (1 + trailing_stop_ratio)
              if trailing_stop ≤ current_price then (true, "trailing_stop")
              else (false, "")

/-- Package a BasicRiskManager instance as the risk-manager interface
the engines consume. -/
def toRiskManager (p : Params) : RiskManager :=
  { risk_per_trade := p.risk_per_trade,
    calculate_stop_loss := calculate_stop_loss p,
    calculate_take_profit := calculate_take_profit p,
    should_close_position := should_close_position p }

end BasicRiskManager

namespace FixedRiskManagement

/-- Parameter record of FixedRiskManagement (fixed_risk.py); both
parameters are required, so presence is static here. -/
structure Params where
  risk_per_trade : ℚ
  risk_reward_ratio : ℚ
deriving DecidableEq, Repr

/-- FixedRiskManagement.validate_params: true exactly when construction
succeeds. -/
def validate_params (p : Params) : Bool :=
  (decide (0 < p.risk_per_trade) && decide (p.risk_per_trade ≤ 1/10)) &&
  decide (0 < p.risk_reward_ratio)

end FixedRiskManagement

namespace ATRRiskManagement

/-- Parameter record of ATRRiskManagement (atr_risk.py). -/
structure Params where
  risk_per_trade : ℚ
  atr_multiplier : ℚ
  risk_reward_ratio : ℚ
deriving DecidableEq, Repr

/-- ATRRiskManagement.validate_params: true exactly when construction
succeeds. -/
def validate_params (p : Params) : Bool :=
  (decide (0 < p.risk_per_trade) && decide (p.risk_per_trade ≤ 1/10)) &&
  decide (0 < p.atr_multiplier) &&
  decide (0 < p.risk_reward_ratio)

end ATRRiskManagement

/-! ## Signal consensus sites -/

/-- Direction value of a signal dictionary at the consensus sites
(trading/simulator.py collects only signals whose direction is not
None; some strategies there may emit 'exit'). -/
inductive SDir
  | long
  | short
  | exit
deriving DecidableEq, BEq, Repr

namespace TradingSimulator

/-- TradingSimulator.combine_signals (trading/simulator.py lines
138-162): threshold is numStrategies / 2 under true division, a
direction is adopted when its count strictly exceeds it, and an 'exit'
signal is the fallback. -/
def combine_signals (numStrategies : ℕ) (signals : List SDir) : Option SDir :=
  if signals.isEmpty then none
  else
    let long_count := (signals.filter (fun s => s == SDir.long)).length
    let short_count := (signals.filter (fun s => s == SDir.short)).length
    let threshold : ℚ := (numStrategies : ℚ) / 2
    if threshold < (long_count : ℚ) then some SDir.long
    else if threshold < (short_count : ℚ) then some SDir.short
    else if signals.any (fun s => s == SDir.exit) then some SDir.exit
    else none

end TradingSimulator

namespace TradingExecutor

/-- TradingExecutor.validate_signals (trading/executor.py lines 65-82):
a direction is adopted only when at least 3 signals agree on it,
independently of how many strategies are configured. -/
def validate_signals (signals : List SDir) : Option SDir :=
  let long_count := (signals.filter (fun s => s == SDir.long)).length
  let short_count := (signals.filter (fun s => s == SDir.short)).length
  if 3 ≤ long_count then some SDir.long
  else if 3 ≤ short_count then some SDir.short
  else none

end TradingExecutor

/-- Modelled from the spec: the count-based three-tier consensus rule of
spec section 4.3, as a function of the configured strategy count and the
long/short vote counts — N = 1 adopts the single direction directly,
N = 2 requires exact agreement, N ≥ 3 requires a strict majority, and
every other case is none. Used to compare the aggregation sites against
the spec's rule. -/
def threeTierConsensus (numStrategies long_count short_count : ℕ) : Option SDir :=
  if numStrategies = 1 then
    if long_count = 1 then some SDir.long
    else if short_count = 1 then some SDir.short
    else none
  else if numStrategies = 2 then
    if long_count = 2 then some SDir.long
    else if short_count = 2 then some SDir.short
    else none
  else
    if (numStrategies : ℚ) / 2 < (long_count : ℚ) then some SDir.long
    else if (numStrategies : ℚ) / 2 < (short_count : ℚ) then some SDir.short
    else none

/-! ## Backtest engine -/

namespace BacktestEngine

/-- The mutable state of a BacktestEngine instance: capital, trade log,
the single open-position slot and the running metrics. -/
structure EngineState where
  initial_capital : ℚ
  current_capital : ℚ
  trades : List Trade
  current_position : Option Position
  peak_capital : ℚ
  max_drawdown : ℚ
  returnsLog : List ℚ
deriving DecidableEq, Repr

/-- Engine state right after __init__. -/
def initState (cap : ℚ) : EngineState :=
  { initial_capital := cap, current_capital := cap, trades := [],
    current_position := none, peak_capital := cap, max_drawdown := 0,
    returnsLog := [] }

/-- BacktestEngine.update_metrics (backtest_engine.py lines 52-63):
append the trade, add its pnl to capital, update the running peak and
max drawdown, and record the return. -/
def update_metrics (s : EngineState) (t : Trade) : EngineState :=
  let cc := s.current_capital + t.pnl
  let pk := max s.peak_capital cc
  let dd := (pk - cc) / pk
  { s with
    trades := s.trades ++ [t],
    current_capital := cc,
    peak_capital := pk,
    max_drawdown := max s.max_drawdown dd,
    returnsLog := s.returnsLog ++ [t.pnl / s.initial_capital] }

/-- BacktestEngine.calculate_position_size (backtest_engine.py lines
65-69): risk amount over stop distance, 0 when the stop distance is 0.
SimulationEngine.calculate_position_size (simulation_engine.py lines
53-57) is the identical computation on the simulation's capital. -/
def calculate_position_size (risk_per_trade capital entry_price stop_loss : ℚ) : ℚ :=
  let risk_amount := capital * risk_per_trade
  let stop_distance := |entry_price - stop_loss|
  if 0 < stop_distance then risk_amount / stop_distance else 0

/-- Unrealized PnL as computed inline in both engines. -/
def unrealizedPnl (d : Dir) (entry_price current_price size : ℚ) : ℚ :=
  match d with
  | Dir.long => (current_price - entry_price) * size
  | Dir.short => (entry_price - current_price) * size

/-- The body of the per-bar loop of BacktestEngine.run (backtest_engine.py
lines 82-148) for one bar, given the signal the strategy produced for the
window ending at this bar: enter when flat and the signal has a direction
and the computed size is positive; otherwise, when a position is held,
evaluate the close conditions and record the trade when they fire. -/
def stepBar (rm : RiskManager) (sig : Signal) (bar : Bar) (s : EngineState) : EngineState :=
  match s.current_position with
  | none =>
      match sig.direction with
      | none => s
      | some d =>
          let entry_price := sig.entry_price
          let stop_loss := rm.calculate_stop_loss entry_price d sig.volatility
          let take_profit := rm.calculate_take_profit entry_price d stop_loss
          let position_size :=
            calculate_position_size rm.risk_per_trade s.current_capital entry_price stop_loss
          if 0 < position_size then
            { s with
              current_position := some
                { type := d, entry_price := entry_price, size := position_size,
                  stop_loss := stop_loss, take_profit := take_profit,
                  entry_time := bar.time } }
          else s
  | some pos =>
      let current_price := bar.close
      let holding_period := bar.time - pos.entry_time
      let upnl := unrealizedPnl pos.type pos.entry_price current_price pos.size
      let scr := rm.should_close_position pos.type pos.entry_price current_price
        pos.stop_loss pos.take_profit upnl holding_period
      if scr.1 || sig.exit_signal then
        let t : Trade :=
          { timestamp := bar.time, position_type := pos.type,
            entry_price := pos.entry_price, exit_price := current_price,
            position_size := pos.size, pnl := upnl,
            stop_loss := pos.stop_loss, take_profit := pos.take_profit,
            exit_reason := if scr.2 = "" then "signal" else scr.2,
            holding_period := holding_period }
        { update_metrics s t with current_position := none }
      else s

/-- The loop of BacktestEngine.run: iterate the bars in order, handing
the strategy the window of all bars up to and including the current
one. -/
def runAux (rm : RiskManager) (strat : List Bar → Signal) :
    List Bar → List Bar → EngineState → EngineState
  | [], _, s => s
  | b :: rest, seen, s =>
      runAux rm strat rest (seen ++ [b]) (stepBar rm (strat (seen ++ [b])) b s)

/-- The BacktestResult record as assembled at the end of
BacktestEngine.run (backtest_engine.py lines 150-173). -/
structure BacktestResult where
  initial_capital : ℚ
  final_capital : ℚ
  total_pnl : ℚ
  total_trades : ℕ
  winning_trades : ℕ
  losing_trades : ℕ
  win_rate : ℚ
  max_drawdown : ℚ
  trades : List Trade
deriving DecidableEq, Repr

/-- Build the result from the final engine state, with the formulas of
backtest_engine.py lines 150-173. -/
def mkResult (s : EngineState) : BacktestResult :=
  let total_pnl := (s.trades.map Trade.pnl).sum
  let winning_trades := (s.trades.filter (fun t => decide (0 < t.pnl))).length
  { initial_capital := s.initial_capital,
    final_capital := s.current_capital,
    total_pnl := total_pnl,
    total_trades := s.trades.length,
    winning_trades := winning_trades,
    losing_trades := s.trades.length - winning_trades,
    win_rate := if s.trades.isEmpty then 0 else (winning_trades : ℚ) / (s.trades.length : ℚ),
    max_drawdown := s.max_drawdown,
    trades := s.trades }

/-- BacktestEngine.run: process every bar, then build the result from
the final state — the source performs no end-of-data action between the
loop and the result construction. -/
def run (rm : RiskManager) (strat : List Bar → Signal) (bars : List Bar)
    (cap : ℚ) : BacktestResult :=
  mkResult (runAux rm strat bars [] (initState cap))

end BacktestEngine

/-! ## Simulation engine -/

namespace SimulationEngine

/-- The SimulationResult record (models/simulation.py) restricted to the
fields the engine mutates, together with the engine's running flag.
The on-update callback and the wall-clock timestamps live outside the
state: callback invocation is reported in the step's output, and the
current time enters the step as a parameter. -/
structure SimState where
  running : Bool
  status : String
  initial_capital : ℚ
  current_capital : ℚ
  current_position : Option Position
  total_pnl : ℚ
  total_trades : ℕ
  winning_trades : ℕ
  losing_trades : ℕ
  current_drawdown : ℚ
  max_drawdown : ℚ
  trades : List Trade
  error_message : Option String
deriving DecidableEq, Repr

/-- State right after SimulationEngine.__init__ builds its
SimulationResult: running is false until start() is called, status
defaults to 'running'. -/
def initSim (cap : ℚ) : SimState :=
  { running := false, status := "running", initial_capital := cap,
    current_capital := cap, current_position := none, total_pnl := 0,
    total_trades := 0, winning_trades := 0, losing_trades := 0,
    current_drawdown := 0, max_drawdown := 0, trades := [],
    error_message := none }

/-- SimulationEngine.start (simulation_engine.py lines 148-156). -/
def start (s : SimState) : SimState :=
  if s.running then s
  else { s with running := true, status := "running" }

/-- SimulationEngine.stop (simulation_engine.py lines 158-167); the end
time stamp is outside the modelled state. -/
def stop (s : SimState) : SimState :=
  if !s.running then s
  else { s with running := false, status := "completed" }

/-- SimulationResult.update_metrics (models/simulation.py lines 45-62):
append the trade, bump the counters, add the pnl to capital, and compute
the drawdown against max(initial_capital, current_capital). -/
def update_metrics (s : SimState) (t : Trade) : SimState :=
  let cc := s.current_capital + t.pnl
  let peak_capital := max s.initial_capital cc
  let cd := (peak_capital - cc) / peak_capital
  { s with
    trades := s.trades ++ [t],
    total_trades := s.total_trades + 1,
    total_pnl := s.total_pnl + t.pnl,
    winning_trades := if 0 < t.pnl then s.winning_trades + 1 else s.winning_trades,
    losing_trades := if 0 < t.pnl then s.losing_trades else s.losing_trades + 1,
    current_capital := cc,
    current_drawdown := cd,
    max_drawdown := max s.max_drawdown cd }

/-- The position-lifecycle body of SimulationEngine.process_update
(simulation_engine.py lines 74-136) for one successfully computed
signal: enter when flat with a direction and a positive size, otherwise
evaluate the close conditions on the held position. `close` is
data['close']; `now` is the current wall-clock minute. -/
def simStep (rm : RiskManager) (sig : Signal) (close : ℚ) (now : ℤ)
    (s : SimState) : SimState :=
  match s.current_position with
  | none =>
      match sig.direction with
      | none => s
      | some d =>
          let entry_price := sig.entry_price
          let stop_loss := rm.calculate_stop_loss entry_price d sig.volatility
          let take_profit := rm.calculate_take_profit entry_price d stop_loss
          let position_size := BacktestEngine.calculate_position_size
            rm.risk_per_trade s.current_capital entry_price stop_loss
          if 0 < position_size then
            { s with
              current_position := some
                { type := d, entry_price := entry_price, size := position_size,
                  stop_loss := stop_loss, take_profit := take_profit,
                  entry_time := now } }
          else s
  | some pos =>
      let current_price := close
      let holding_period := now - pos.entry_time
      let upnl := BacktestEngine.unrealizedPnl pos.type pos.entry_price
        current_price pos.size
      let scr := rm.should_close_position pos.type pos.entry_price current_price
        pos.stop_loss pos.take_profit upnl holding_period
      if scr.1 || sig.exit_signal then
        let t : Trade :=
          { timestamp := now, position_type := pos.type,
            entry_price := pos.entry_price, exit_price := current_price,
            position_size := pos.size, pnl := upnl,
            stop_loss := pos.stop_loss, take_profit := pos.take_profit,
            exit_reason := if scr.2 = "" then "signal" else scr.2,
            holding_period := holding_period }
        { update_metrics s t with current_position := none }
      else s

/-- SimulationEngine.process_update (simulation_engine.py lines 59-146)
for one data update. `sigRes` is the outcome of the strategy's
calculate_signals call (Except.error models a raised exception, caught
by the handler at lines 142-146). Returns the new state, the outcome
surfaced to the caller (Except.error when the exception is re-raised),
and whether the on-update callback was invoked. -/
def process_update (rm : RiskManager) (sigRes : Except String Signal)
    (close : ℚ) (now : ℤ) (hasCb : Bool) (s : SimState) :
    SimState × Except String Unit × Bool :=
  if !s.running then (s, Except.ok (), false)
  else
    match sigRes with
    | Except.error e =>
        ({ s with error_message := some e, running := false }, Except.error e, false)
    | Except.ok sig => (simStep rm sig close now s, Except.ok (), hasCb)

/-- One incoming update: the strategy outcome for it, its close price
and its arrival minute. -/
structure Update where
  sigRes : Except String Signal
  close : ℚ
  now : ℤ

/-- Feeding a sequence of updates through process_update in arrival
order (the per-instance lock serializes them in the source). -/
def processList (rm : RiskManager) (hasCb : Bool) :
    List Update → SimState → SimState
  | [], s => s
  | u :: rest, s =>
      processList rm hasCb rest (process_update rm u.sigRes u.close u.now hasCb s).1

end SimulationEngine

/-! ## Spec-side definitions used to compare the code against the
specification's wording -/

/-- Modelled from the spec: the running-peak metrics recurrence of spec
section 3 — capital accumulates pnl, peak_capital is the running max of
capital, max_drawdown the running max of (peak - capital) / peak against
that running peak. Folds one realized pnl at a time and returns
(capital, peak_capital, max_drawdown). -/
def specRunningPeak (capital peak_capital max_drawdown : ℚ) :
    List ℚ → ℚ × ℚ × ℚ
  | [] => (capital, peak_capital, max_drawdown)
  | pnl :: rest =>
      let cc := capital + pnl
      let pk := max peak_capital cc
      let dd := (pk - cc) / pk
      specRunningPeak cc pk (max max_drawdown dd) rest

/-- Whether the current price has crossed the protective stop, on the
adverse side of entry for the given direction. -/
def crossedStop (d : Dir) (current_price stop_loss : ℚ) : Bool :=
  match d with
  | Dir.long => decide (current_price ≤ stop_loss)
  | Dir.short => decide (stop_loss ≤ current_price)

/-- Whether the current price has crossed the profit target, on the
favorable side of entry for the given direction. -/
def crossedTarget (d : Dir) (current_price take_profit : ℚ) : Bool :=
  match d with
  | Dir.long => decide (take_profit ≤ current_price)
  | Dir.short => decide (current_price ≤ take_profit)

/-- The trailing-stop breach condition (with the trailing formula of
basic_risk_manager.py); false when no trailing percentage is
configured. -/
def trailingBreached (trailing_stop_pct : Option ℚ) (d : Dir)
    (entry_price current_price : ℚ) : Bool :=
  match trailing_stop_pct with
  | none => false
  | some pct =>
      let trailing_stop_ratio := pct / 100
      match d with
      | Dir.long =>
          decide (current_price ≤ max entry_price current_price * (1 - trailing_stop_ratio))
      | Dir.short =>
          decide (min entry_price current_price * (1 + trailing_stop_ratio) ≤ current_price)

/-- Modelled from the spec: the fixed evaluation order of should_close
in spec section 4.2 — maximum holding period exceeded, then stop, then
target, then optional trailing breach, otherwise no close. -/
def specOrderedClose (max_holding : ℤ) (trailing_stop_pct : Option ℚ) (d : Dir)
    (entry_price current_price stop_loss take_profit : ℚ)
    (holding_period : ℤ) : Bool × String :=
  if max_holding ≤ holding_period then (true, "max_holding_period")
  else if crossedStop d current_price stop_loss then (true, "stop_loss")
  else if crossedTarget d current_price take_profit then (true, "take_profit")
  else if trailingBreached trailing_stop_pct d entry_price current_price then
    (true, "trailing_stop")
  else (false, "")

/-- The round-trip accounting law of spec section 3 for the backtest
state: current capital is the initial capital plus the realized pnl of
every recorded trade. -/
def BacktestEngine.capitalLaw (s : BacktestEngine.EngineState) : Prop :=
  s.current_capital = s.initial_capital + (s.trades.map Trade.pnl).sum

/-- The round-trip accounting law for the simulation state. -/
def SimulationEngine.capitalLaw (s : SimulationEngine.SimState) : Prop :=
  s.current_capital = s.initial_capital + (s.trades.map Trade.pnl).sum

/-! ## Claim C2 -/

/-- Claim C2 fails on the code: BacktestEngine.run contains no
end-of-data force-close. On a two-bar series where the strategy enters
long on the first bar and nothing triggers an exit, the state after the
final bar still holds the open position and the returned result's trade
log is empty — no trade with exit_reason end_of_period is recorded. -/
theorem C2_counterexample :
    (BacktestEngine.runAux
        (BasicRiskManager.toRiskManager BasicRiskManager.default_params)
        (fun _ => { direction := some Dir.long, entry_price := 100,
                    volatility := none, exit_signal := false })
        [{ time := 0, close := 100 }, { time := 1, close := 100 }] []
        (BacktestEngine.initState 10000)).current_position =
      some { type := Dir.long, entry_price := 100, size := 100,
             stop_loss := 98, take_profit := 104, entry_time := 0 } ∧
    (BacktestEngine.run
        (BasicRiskManager.toRiskManager BasicRiskManager.default_params)
        (fun _ => { direction := some Dir.long, entry_price := 100,
                    volatility := none, exit_signal := false })
        [{ time := 0, close := 100 }, { time := 1, close := 100 }]
        10000).trades = [] := by
  constructor <;>
    norm_num [BacktestEngine.run, BacktestEngine.mkResult, BacktestEngine.runAux,
      BacktestEngine.stepBar, BacktestEngine.initState,
      BacktestEngine.calculate_position_size, BacktestEngine.update_metrics,
      BacktestEngine.unrealizedPnl, BasicRiskManager.toRiskManager,
      BasicRiskManager.default_params, BasicRiskManager.calculate_stop_loss,
      BasicRiskManager.calculate_take_profit, BasicRiskManager.should_close_position]

/-- Claim C2 as amended: in backtest mode no end-of-data action is
taken — the returned result's trade log and final capital are exactly
those of the engine state after the last processed bar, so a position
still open after the final bar is neither force-closed nor reflected in
the result. -/
theorem C2_no_force_close (rm : RiskManager) (strat : List Bar → Signal)
    (bars : List Bar) (cap : ℚ) :
    (BacktestEngine.run rm strat bars cap).trades =
      (BacktestEngine.runAux rm strat bars [] (BacktestEngine.initState cap)).trades ∧
    (BacktestEngine.run rm strat bars cap).final_capital =
      (BacktestEngine.runAux rm strat bars [] (BacktestEngine.initState cap)).current_capital :=
  ⟨rfl, rfl⟩

/-! ## Claim C4 -/

/-- Claim C4 fails on the code: SimulationResult.update_metrics measures
drawdown against max(initial_capital, current_capital) rather than the
running peak. After a winning trade of +100 and a losing trade of -100
from initial capital 100, the simulation reports max_drawdown 0, while
the spec's running-peak recurrence over the same pnl sequence gives
max_drawdown 1/2. -/
theorem C4_counterexample :
    (SimulationEngine.update_metrics
        (SimulationEngine.update_metrics (SimulationEngine.initSim 100)
          { timestamp := 0, position_type := Dir.long, entry_price := 1,
            exit_price := 2, position_size := 1, pnl := 100, stop_loss := 0,
            take_profit := 0, exit_reason := "take_profit", holding_period := 1 })
        { timestamp := 1, position_type := Dir.long, entry_price := 1,
          exit_price := 2, position_size := 1, pnl := -100, stop_loss := 0,
          take_profit := 0, exit_reason := "stop_loss", holding_period := 1 }).max_drawdown
      = 0 ∧
    (specRunningPeak 100 100 0 [100, -100]).2.2 = 1/2 := by
  constructor
  · norm_num [SimulationEngine.update_metrics, SimulationEngine.initSim]
  · norm_num [specRunningPeak]

/-- Claim C4 as amended: the backtest engine does maintain the running
peak (peak' = max(peak, capital')) and the non-decreasing running max
drawdown against it; the simulation instead recomputes its peak on each
trade as max(initial_capital, current_capital) (the peak is not
persisted), measures current_drawdown against that value, and keeps
max_drawdown as the non-decreasing max of those drawdowns. -/
theorem C4_metrics_update (sB : BacktestEngine.EngineState)
    (sS : SimulationEngine.SimState) (t : Trade) :
    ((BacktestEngine.update_metrics sB t).peak_capital
        = max sB.peak_capital (sB.current_capital + t.pnl) ∧
      (BacktestEngine.update_metrics sB t).max_drawdown
        = max sB.max_drawdown
            (((BacktestEngine.update_metrics sB t).peak_capital
                - (sB.current_capital + t.pnl))
              / (BacktestEngine.update_metrics sB t).peak_capital) ∧
      sB.peak_capital ≤ (BacktestEngine.update_metrics sB t).peak_capital ∧
      sB.max_drawdown ≤ (BacktestEngine.update_metrics sB t).max_drawdown) ∧
    ((SimulationEngine.update_metrics sS t).current_drawdown
        = (max sS.initial_capital (sS.current_capital + t.pnl)
            - (sS.current_capital + t.pnl))
          / max sS.initial_capital (sS.current_capital + t.pnl) ∧
      (SimulationEngine.update_metrics sS t).max_drawdown
        = max sS.max_drawdown (SimulationEngine.update_metrics sS t).current_drawdown ∧
      sS.max_drawdown ≤ (SimulationEngine.update_metrics sS t).max_drawdown) :=
  ⟨⟨rfl, rfl, le_max_left _ _, le_max_left _ _⟩,
   ⟨rfl, rfl, le_max_left _ _⟩⟩

/-! ## Claim C7 -/

/-- Claim C7 fails on the code: the position size is not clamped to be
non-negative. With capital -1000, risk fraction 1/50, entry 10 and stop
9, calculate_position_size returns -20 < 0. -/
theorem C7_counterexample :
    BacktestEngine.calculate_position_size (1/50) (-1000) 10 9 = -20 ∧
    BacktestEngine.calculate_position_size (1/50) (-1000) 10 9 < 0 := by
  constructor <;> norm_num [BacktestEngine.calculate_position_size]

/-- Claim C7 as amended: the position size is
(capital × risk_fraction) / |entry − stop| when the stop distance is
positive and exactly 0 when the stop distance is 0 (the division is
guarded); it is non-negative whenever capital and risk fraction are
non-negative (there is no clamp for negative capital); and the engine
enters a position only when the computed size is strictly positive. -/
theorem C7_position_size (risk_per_trade capital entry_price stop_loss : ℚ) :
    (|entry_price - stop_loss| = 0 →
      BacktestEngine.calculate_position_size risk_per_trade capital entry_price stop_loss
        = 0) ∧
    (0 < |entry_price - stop_loss| →
      BacktestEngine.calculate_position_size risk_per_trade capital entry_price stop_loss
        = capital * risk_per_trade / |entry_price - stop_loss|) ∧
    (0 ≤ capital → 0 ≤ risk_per_trade →
      0 ≤ BacktestEngine.calculate_position_size risk_per_trade capital entry_price stop_loss) ∧
    (∀ (rm : RiskManager) (sig : Signal) (bar : Bar) (s : BacktestEngine.EngineState) (d : Dir),
      s.current_position = none →
      sig.direction = some d →
      ¬ 0 < BacktestEngine.calculate_position_size rm.risk_per_trade s.current_capital
          sig.entry_price (rm.calculate_stop_loss sig.entry_price d sig.volatility) →
      (BacktestEngine.stepBar rm sig bar s).current_position = none) := by
  refine ⟨?_, ?_, ?_, ?_⟩
  · intro h
    simp [BacktestEngine.calculate_position_size, h]
  · intro h
    simp [BacktestEngine.calculate_position_size, h]
  · intro hc hr
    by_cases h : 0 < |entry_price - stop_loss|
    · simp only [BacktestEngine.calculate_position_size, if_pos h]
      exact div_nonneg (mul_nonneg hc hr) (abs_nonneg _)
    · simp only [BacktestEngine.calculate_position_size, if_neg h]
      exact le_refl 0
  · intro rm sig bar s d hpos hdir hsize
    simp only [BacktestEngine.stepBar, hpos, hdir]
    rw [if_neg hsize]
    exact hpos

/-- Witness for C7_position_size: with a zero stop distance the computed
size is exactly 0. -/
theorem C7_position_size_witness :
    BacktestEngine.calculate_position_size (1/50) 10000 100 100 = 0 :=
  (C7_position_size (1/50) 10000 100 100).1 (by simp)

/-! ## Claim C8 -/

/-- Claim C8 fails on the code: BasicRiskManager accepts any
risk_per_trade in (0, 1), so a policy instance with risk_per_trade = 1/2
(well outside (0, 0.1]) constructs successfully. -/
theorem C8_counterexample :
    BasicRiskManager.validate_params
      { BasicRiskManager.default_params with risk_per_trade := 1/2 } = true ∧
    ¬ ((1:ℚ)/2 ≤ 1/10) := by
  constructor
  · norm_num [BasicRiskManager.validate_params, BasicRiskManager.default_params]
  · norm_num

/-- Claim C8 as amended: FixedRiskManagement and ATRRiskManagement
validate risk_per_trade ∈ (0, 0.1] (together with their positive-ratio
checks) at construction, but BasicRiskManager only requires
risk_per_trade ∈ (0, 1) alongside its positive stop-loss percentage,
reward ratio, holding period and optional trailing percentage. -/
theorem C8_param_validation :
    (∀ p : FixedRiskManagement.Params,
      FixedRiskManagement.validate_params p = true ↔
        (0 < p.risk_per_trade ∧ p.risk_per_trade ≤ 1/10 ∧
          0 < p.risk_reward_ratio)) ∧
    (∀ p : ATRRiskManagement.Params,
      ATRRiskManagement.validate_params p = true ↔
        (0 < p.risk_per_trade ∧ p.risk_per_trade ≤ 1/10 ∧
          0 < p.atr_multiplier ∧ 0 < p.risk_reward_ratio)) ∧
    (∀ p : BasicRiskManager.Params,
      BasicRiskManager.validate_params p = true ↔
        (0 < p.stop_loss_pct ∧ 0 < p.risk_reward_ratio ∧
          0 < p.max_holding_minutes ∧
          (∀ t, p.trailing_stop_pct = some t → 0 < t) ∧
          0 < p.risk_per_trade ∧ p.risk_per_trade < 1)) := by
  refine ⟨?_, ?_, ?_⟩
  · intro p
    simp [FixedRiskManagement.validate_params, and_assoc]
  · intro p
    simp [ATRRiskManagement.validate_params, and_assoc]
  · intro p
    cases htr : p.trailing_stop_pct with
    | none => simp [BasicRiskManager.validate_params, htr, and_assoc]
    | some t => simp [BasicRiskManager.validate_params, htr, and_assoc]

/-- Witness for C8_param_validation: the fixed policy's default
parameters satisfy the (0, 0.1] validation. -/
theorem C8_param_validation_witness :
    0 < ((1:ℚ)/50) ∧ ((1:ℚ)/50) ≤ 1/10 ∧ 0 < (2:ℚ) :=
  (C8_param_validation.1 { risk_per_trade := 1/50, risk_reward_ratio := 2 }).mp
    (by norm_num [FixedRiskManagement.validate_params])

/-! ## Claim C6 -/

/-- Claim C6 fails on the code: the default should_close_position
inherited by FixedRiskManagement and ATRRiskManagement checks neither
the maximum holding period nor a trailing stop. With a held long
position whose price sits between stop and target and a huge holding
period, it returns (false, ''), while the spec's ordered rule (with any
finite maximum) would return (true, 'max_holding_period'). -/
theorem C6_counterexample :
    BaseRiskManagement.should_close_position Dir.long 100 100 95 110 0 999999
      = (false, "") ∧
    specOrderedClose 1440 none Dir.long 100 100 95 110 999999
      = (true, "max_holding_period") := by
  constructor
  · norm_num [BaseRiskManagement.should_close_position]
  · norm_num [specOrderedClose]

/-- Claim C6 as amended: BasicRiskManager.should_close_position does
evaluate its exit conditions in the spec's fixed order (maximum holding
period, stop, target, optional trailing stop, otherwise no close), but
the base implementation inherited by FixedRiskManagement and
ATRRiskManagement evaluates only the stop and then the target; in both
implementations the held-long scenario with stop 95, target 110 and
price 94 yields (true, 'stop_loss'). -/
theorem C6_should_close_order :
    (∀ (p : BasicRiskManager.Params) (d : Dir)
        (entry_price current_price stop_loss take_profit unrealized_pnl : ℚ)
        (holding_period : ℤ),
      BasicRiskManager.should_close_position p d entry_price current_price stop_loss
          take_profit unrealized_pnl holding_period =
        specOrderedClose p.max_holding_minutes p.trailing_stop_pct d entry_price
          current_price stop_loss take_profit holding_period) ∧
    (∀ (d : Dir) (entry_price current_price stop_loss take_profit unrealized_pnl : ℚ)
        (holding_time : ℤ),
      BaseRiskManagement.should_close_position d entry_price current_price stop_loss
          take_profit unrealized_pnl holding_time =
        (if crossedStop d current_price stop_loss then (true, "stop_loss")
         else if crossedTarget d current_price take_profit then (true, "take_profit")
         else (false, ""))) ∧
    BasicRiskManager.should_close_position BasicRiskManager.default_params Dir.long
        100 94 95 110 (-6) 1 = (true, "stop_loss") ∧
    BaseRiskManagement.should_close_position Dir.long 100 94 95 110 (-6) 1 =
      (true, "stop_loss") := by
  refine ⟨?_, ?_, ?_, ?_⟩
  · intro p d e c sl tp u h
    cases d <;> cases htr : p.trailing_stop_pct <;>
      simp [BasicRiskManager.should_close_position, specOrderedClose, crossedStop,
        crossedTarget, trailingBreached, htr]
  · intro d e c sl tp u h
    cases d <;>
      simp [BaseRiskManagement.should_close_position, crossedStop, crossedTarget]
  · norm_num [BasicRiskManager.should_close_position, BasicRiskManager.default_params]
  · norm_num [BaseRiskManagement.should_close_position]

/-! ## Claim C9 -/

/-- Claim C9 fails on the code: when the strategy raises during
process_update, the handler records the error and stops the simulation
but re-raises the exception to the caller (the Except.error outcome)
and never invokes the on-update callback; the status field is not even
set to an error value. -/
theorem C9_counterexample :
    (SimulationEngine.process_update
        (BasicRiskManager.toRiskManager BasicRiskManager.default_params)
        (Except.error "boom") 100 0 true
        (SimulationEngine.start (SimulationEngine.initSim 100))).2.1 =
      Except.error "boom" ∧
    (SimulationEngine.process_update
        (BasicRiskManager.toRiskManager BasicRiskManager.default_params)
        (Except.error "boom") 100 0 true
        (SimulationEngine.start (SimulationEngine.initSim 100))).2.2 = false ∧
    (SimulationEngine.process_update
        (BasicRiskManager.toRiskManager BasicRiskManager.default_params)
        (Except.error "boom") 100 0 true
        (SimulationEngine.start (SimulationEngine.initSim 100))).1.running = false ∧
    (SimulationEngine.process_update
        (BasicRiskManager.toRiskManager BasicRiskManager.default_params)
        (Except.error "boom") 100 0 true
        (SimulationEngine.start (SimulationEngine.initSim 100))).1.error_message =
      some "boom" ∧
    (SimulationEngine.process_update
        (BasicRiskManager.toRiskManager BasicRiskManager.default_params)
        (Except.error "boom") 100 0 true
        (SimulationEngine.start (SimulationEngine.initSim 100))).1.status = "running" :=
  ⟨rfl, rfl, rfl, rfl, rfl⟩

/-- Claim C9 as amended: on a strategy error during a running
process_update, the engine records the error message on the result and
sets running to false, but it does not invoke the on-update callback
for the failing update and it re-raises the exception to the caller
(and leaves the status field unchanged). -/
theorem C9_error_reraised (rm : RiskManager) (e : String) (close : ℚ) (now : ℤ)
    (hasCb : Bool) (s : SimulationEngine.SimState) (h : s.running = true) :
    SimulationEngine.process_update rm (Except.error e) close now hasCb s =
      ({ s with error_message := some e, running := false },
       Except.error e, false) := by
  simp [SimulationEngine.process_update, h]

/-- Witness for C9_error_reraised at a concrete started simulation. -/
theorem C9_error_reraised_witness :
    SimulationEngine.process_update
        (BasicRiskManager.toRiskManager BasicRiskManager.default_params)
        (Except.error "boom") 100 0 true
        (SimulationEngine.start (SimulationEngine.initSim 100)) =
      ({ SimulationEngine.start (SimulationEngine.initSim 100) with
         error_message := some "boom", running := false },
       Except.error "boom", false) :=
  C9_error_reraised _ "boom" 100 0 true _ rfl

/-! ## Claim C5 -/

/-- Claim C5 fails on the code: TradingExecutor.validate_signals needs
at least 3 agreeing signals, so with a single configured strategy whose
signal is long (N = 1) it returns none, while the three-tier rule
adopts the single signal's direction directly. -/
theorem C5_counterexample :
    TradingExecutor.validate_signals [SDir.long] = none ∧
    threeTierConsensus 1 1 0 = some SDir.long :=
  ⟨rfl, rfl⟩

/-- The strict-majority threshold over rational division, reduced to
natural-number arithmetic. -/
theorem strict_majority_iff (N k : ℕ) :
    ((N : ℚ) / 2 < (k : ℚ)) ↔ N < 2 * k := by
  rw [div_lt_iff₀ (by norm_num : (0:ℚ) < 2)]
  norm_cast
  omega

/-- For vote counts bounded by the strategy count, the strict-majority
if-chain of the simulator agrees with the spec's three-tier rule. -/
theorem threeTier_strict_majority (N L S : ℕ) (h : L + S ≤ N) :
    (if (N : ℚ) / 2 < (L : ℚ) then some SDir.long
     else if (N : ℚ) / 2 < (S : ℚ) then some SDir.short
     else none) = threeTierConsensus N L S := by
  simp only [threeTierConsensus, strict_majority_iff]
  rcases Nat.lt_or_ge N 3 with hN | hN
  · interval_cases N <;> split_ifs <;> first | rfl | omega
  · have h1 : N ≠ 1 := by omega
    have h2 : N ≠ 2 := by omega
    simp only [h1, h2, if_false]

/-- Claim C5 as amended: the simulator's combine_signals implements the
strict-majority threshold count > N/2 over the configured strategy
count, which coincides with the spec's three-tier rule at every N
(pass-through at N = 1, exact agreement at N = 2, strict majority at
N ≥ 3), with an extra fallback adopting 'exit' when some signal is an
exit; the executor's validate_signals instead adopts a direction
exactly when at least 3 signals agree on it, regardless of the number
of configured strategies. -/
theorem C5_consensus_sites :
    (∀ (numStrategies : ℕ) (signals : List SDir),
      signals.all (fun s => !(s == SDir.exit)) = true →
      (signals.filter (fun s => s == SDir.long)).length
          + (signals.filter (fun s => s == SDir.short)).length ≤ numStrategies →
      TradingSimulator.combine_signals numStrategies signals =
        threeTierConsensus numStrategies
          (signals.filter (fun s => s == SDir.long)).length
          (signals.filter (fun s => s == SDir.short)).length) ∧
    (∀ signals : List SDir,
      TradingExecutor.validate_signals signals =
        (if 3 ≤ (signals.filter (fun s => s == SDir.long)).length then some SDir.long
         else if 3 ≤ (signals.filter (fun s => s == SDir.short)).length then
           some SDir.short
         else none)) := by
  constructor
  · intro N signals hex hle
    unfold TradingSimulator.combine_signals
    by_cases hemp : signals.isEmpty
    · rw [if_pos hemp]
      have hnil : signals = [] := List.isEmpty_iff.mp hemp
      subst hnil
      simp only [List.filter_nil, List.length_nil]
      rw [← threeTier_strict_majority N 0 0 (by omega)]
      have h0 : ¬ ((N : ℚ) / 2 < ((0 : ℕ) : ℚ)) := by
        push_cast
        exact not_lt.mpr (div_nonneg (Nat.cast_nonneg N) (by norm_num))
      rw [if_neg h0, if_neg h0]
    · rw [if_neg hemp]
      have hany : signals.any (fun s => s == SDir.exit) = false := by
        rw [List.any_eq_false]
        intro x hx
        have hx' := List.all_eq_true.mp hex x hx
        simpa using hx'
      simp only [hany, Bool.false_eq_true, if_false]
      exact threeTier_strict_majority N _ _ hle
  · intro signals
    rfl

/-- Witness for C5_consensus_sites: three strategies voting long,
short, long yield consensus long at the simulator site, matching the
three-tier rule. -/
theorem C5_consensus_sites_witness :
    TradingSimulator.combine_signals 3 [SDir.long, SDir.short, SDir.long] =
      threeTierConsensus 3 2 1 :=
  C5_consensus_sites.1 3 [SDir.long, SDir.short, SDir.long] (by decide) (by decide)

/-- process_update is a no-op to the state when the simulation is not
running. -/
theorem process_update_not_running (rm : RiskManager)
    (sigRes : Except String Signal) (close : ℚ) (now : ℤ) (hasCb : Bool)
    (s : SimulationEngine.SimState) (h : s.running = false) :
    SimulationEngine.process_update rm sigRes close now hasCb s =
      (s, Except.ok (), false) := by
  simp [SimulationEngine.process_update, h]

/-- On a strategy error while running, process_update records the error
and stops. -/
theorem process_update_error (rm : RiskManager) (e : String) (close : ℚ)
    (now : ℤ) (hasCb : Bool) (s : SimulationEngine.SimState)
    (h : s.running = true) :
    SimulationEngine.process_update rm (Except.error e) close now hasCb s =
      ({ s with error_message := some e, running := false },
       Except.error e, false) := by
  simp [SimulationEngine.process_update, h]

/-- On a successful signal while running, process_update runs the
lifecycle step and reports the callback invocation. -/
theorem process_update_ok (rm : RiskManager) (sig : Signal) (close : ℚ)
    (now : ℤ) (hasCb : Bool) (s : SimulationEngine.SimState)
    (h : s.running = true) :
    SimulationEngine.process_update rm (Except.ok sig) close now hasCb s =
      (SimulationEngine.simStep rm sig close now s, Except.ok (), hasCb) := by
  simp [SimulationEngine.process_update, h]

/-! ## Claim C1 -/

/-- Claim C1: in both engines, a per-bar step taken while a position is
held either keeps exactly that position or closes it, recording exactly
one trade — it never replaces it with, or adds, another open position;
entry is therefore possible only from the flat state. -/
theorem C1_at_most_one_open_position :
    (∀ (rm : RiskManager) (sig : Signal) (bar : Bar)
        (s : BacktestEngine.EngineState) (p : Position),
      s.current_position = some p →
      (BacktestEngine.stepBar rm sig bar s).current_position = some p ∨
      ((BacktestEngine.stepBar rm sig bar s).current_position = none ∧
        ∃ t : Trade, (BacktestEngine.stepBar rm sig bar s).trades = s.trades ++ [t])) ∧
    (∀ (rm : RiskManager) (sigRes : Except String Signal) (close : ℚ) (now : ℤ)
        (hasCb : Bool) (s : SimulationEngine.SimState) (p : Position),
      s.current_position = some p →
      (SimulationEngine.process_update rm sigRes close now hasCb s).1.current_position
          = some p ∨
      ((SimulationEngine.process_update rm sigRes close now hasCb s).1.current_position
          = none ∧
        ∃ t : Trade,
          (SimulationEngine.process_update rm sigRes close now hasCb s).1.trades
            = s.trades ++ [t])) := by
  constructor
  · intro rm sig bar s p hp
    unfold BacktestEngine.stepBar
    rw [hp]
    dsimp only
    split_ifs <;> first
      | exact Or.inl hp
      | exact Or.inr ⟨rfl, ⟨_, rfl⟩⟩
  · intro rm sigRes close now hasCb s p hp
    cases hrun : s.running with
    | false =>
        rw [process_update_not_running rm sigRes close now hasCb s hrun]
        exact Or.inl hp
    | true =>
        cases sigRes with
        | error e =>
            rw [process_update_error rm e close now hasCb s hrun]
            exact Or.inl hp
        | ok sig =>
            rw [process_update_ok rm sig close now hasCb s hrun]
            unfold SimulationEngine.simStep
            rw [hp]
            dsimp only
            split_ifs <;> first
              | exact Or.inl hp
              | exact Or.inr ⟨rfl, ⟨_, rfl⟩⟩

/-- Witness for C1_at_most_one_open_position at a concrete held
position. -/
theorem C1_witness :
    (BacktestEngine.stepBar
        (BasicRiskManager.toRiskManager BasicRiskManager.default_params)
        { direction := none, entry_price := 0, volatility := none, exit_signal := true }
        { time := 1, close := 100 }
        { BacktestEngine.initState 100 with
          current_position := some
            { type := Dir.long, entry_price := 100, size := 1, stop_loss := 98,
              take_profit := 104, entry_time := 0 } }).current_position =
      some { type := Dir.long, entry_price := 100, size := 1, stop_loss := 98,
             take_profit := 104, entry_time := 0 } ∨
    ((BacktestEngine.stepBar
        (BasicRiskManager.toRiskManager BasicRiskManager.default_params)
        { direction := none, entry_price := 0, volatility := none, exit_signal := true }
        { time := 1, close := 100 }
        { BacktestEngine.initState 100 with
          current_position := some
            { type := Dir.long, entry_price := 100, size := 1, stop_loss := 98,
              take_profit := 104, entry_time := 0 } }).current_position = none ∧
      ∃ t : Trade,
        (BacktestEngine.stepBar
            (BasicRiskManager.toRiskManager BasicRiskManager.default_params)
            { direction := none, entry_price := 0, volatility := none, exit_signal := true }
            { time := 1, close := 100 }
            { BacktestEngine.initState 100 with
              current_position := some
                { type := Dir.long, entry_price := 100, size := 1, stop_loss := 98,
                  take_profit := 104, entry_time := 0 } }).trades =
          ({ BacktestEngine.initState 100 with
             current_position := some
               { type := Dir.long, entry_price := 100, size := 1, stop_loss := 98,
                 take_profit := 104, entry_time := 0 } }).trades ++ [t]) :=
  C1_at_most_one_open_position.1 _ _ _ _ _ rfl

/-! ## Claim C10 -/

/-- Claim C10: in both engines, a per-bar step that starts flat never
records a trade (in particular, no trade is recorded on the bar that
opens a position, since exit conditions are not evaluated on it), and a
step that records a trade must have started with a held position — so
every trade spans at least one bar step. -/
theorem C10_one_lifecycle_action_per_bar :
    (∀ (rm : RiskManager) (sig : Signal) (bar : Bar)
        (s : BacktestEngine.EngineState),
      s.current_position = none →
      (BacktestEngine.stepBar rm sig bar s).trades = s.trades) ∧
    (∀ (rm : RiskManager) (sig : Signal) (bar : Bar)
        (s : BacktestEngine.EngineState),
      (BacktestEngine.stepBar rm sig bar s).trades ≠ s.trades →
      ∃ p : Position, s.current_position = some p) ∧
    (∀ (rm : RiskManager) (sigRes : Except String Signal) (close : ℚ) (now : ℤ)
        (hasCb : Bool) (s : SimulationEngine.SimState),
      s.current_position = none →
      (SimulationEngine.process_update rm sigRes close now hasCb s).1.trades
        = s.trades) ∧
    (∀ (rm : RiskManager) (sigRes : Except String Signal) (close : ℚ) (now : ℤ)
        (hasCb : Bool) (s : SimulationEngine.SimState),
      (SimulationEngine.process_update rm sigRes close now hasCb s).1.trades
          ≠ s.trades →
      ∃ p : Position, s.current_position = some p) := by
  refine ⟨?_, ?_, ?_, ?_⟩
  · intro rm sig bar s hp
    unfold BacktestEngine.stepBar
    rw [hp]
    cases hd : sig.direction with
    | none => rfl
    | some d =>
        dsimp only
        split_ifs <;> rfl
  · intro rm sig bar s hne
    cases hp : s.current_position with
    | some p => exact ⟨p, rfl⟩
    | none =>
        exfalso
        apply hne
        unfold BacktestEngine.stepBar
        rw [hp]
        cases hd : sig.direction with
        | none => rfl
        | some d =>
            dsimp only
            split_ifs <;> rfl
  · intro rm sigRes close now hasCb s hp
    cases hrun : s.running with
    | false => rw [process_update_not_running rm sigRes close now hasCb s hrun]
    | true =>
        cases sigRes with
        | error e => rw [process_update_error rm e close now hasCb s hrun]
        | ok sig =>
            rw [process_update_ok rm sig close now hasCb s hrun]
            unfold SimulationEngine.simStep
            rw [hp]
            cases hd : sig.direction with
            | none => rfl
            | some d =>
                dsimp only
                split_ifs <;> rfl
  · intro rm sigRes close now hasCb s hne
    cases hp : s.current_position with
    | some p => exact ⟨p, rfl⟩
    | none =>
        exfalso
        apply hne
        cases hrun : s.running with
        | false => rw [process_update_not_running rm sigRes close now hasCb s hrun]
        | true =>
            cases sigRes with
            | error e => rw [process_update_error rm e close now hasCb s hrun]
            | ok sig =>
                rw [process_update_ok rm sig close now hasCb s hrun]
                unfold SimulationEngine.simStep
                rw [hp]
                cases hd : sig.direction with
                | none => rfl
                | some d =>
                    dsimp only
                    split_ifs <;> rfl

/-- Witness for C10_one_lifecycle_action_per_bar on a flat engine
state: the step records no trade. -/
theorem C10_witness :
    (BacktestEngine.stepBar
        (BasicRiskManager.toRiskManager BasicRiskManager.default_params)
        { direction := some Dir.long, entry_price := 100, volatility := none,
          exit_signal := false }
        { time := 0, close := 100 } (BacktestEngine.initState 10000)).trades =
      (BacktestEngine.initState 10000).trades :=
  C10_one_lifecycle_action_per_bar.1 _ _ _ _ rfl

/-! ## Claim C3 -/

/-- One backtest step preserves the round-trip accounting law. -/
theorem stepBar_capitalLaw (rm : RiskManager) (sig : Signal) (bar : Bar)
    (s : BacktestEngine.EngineState) (h : BacktestEngine.capitalLaw s) :
    BacktestEngine.capitalLaw (BacktestEngine.stepBar rm sig bar s) := by
  unfold BacktestEngine.capitalLaw at h ⊢
  unfold BacktestEngine.stepBar
  cases hp : s.current_position with
  | none =>
      cases hd : sig.direction with
      | none => exact h
      | some d =>
          dsimp only
          split_ifs <;> exact h
  | some pos =>
      dsimp only
      split_ifs <;>
        simp only [BacktestEngine.update_metrics, List.map_append, List.sum_append,
          List.map_cons, List.map_nil, List.sum_cons, List.sum_nil, add_zero, h] <;>
        ring

/-- The backtest loop preserves the round-trip accounting law. -/
theorem runAux_capitalLaw (rm : RiskManager) (strat : List Bar → Signal) :
    ∀ (bars seen : List Bar) (s : BacktestEngine.EngineState),
      BacktestEngine.capitalLaw s →
      BacktestEngine.capitalLaw (BacktestEngine.runAux rm strat bars seen s) := by
  intro bars
  induction bars with
  | nil => intro seen s h; exact h
  | cons b rest ih =>
      intro seen s h
      exact ih (seen ++ [b]) _ (stepBar_capitalLaw rm (strat (seen ++ [b])) b s h)

/-- One backtest step does not change the initial capital. -/
theorem stepBar_initial (rm : RiskManager) (sig : Signal) (bar : Bar)
    (s : BacktestEngine.EngineState) :
    (BacktestEngine.stepBar rm sig bar s).initial_capital = s.initial_capital := by
  unfold BacktestEngine.stepBar
  cases hp : s.current_position with
  | none =>
      cases hd : sig.direction with
      | none => rfl
      | some d =>
          dsimp only
          split_ifs <;> rfl
  | some pos =>
      dsimp only
      split_ifs <;> rfl

/-- The backtest loop does not change the initial capital. -/
theorem runAux_initial (rm : RiskManager) (strat : List Bar → Signal) :
    ∀ (bars seen : List Bar) (s : BacktestEngine.EngineState),
      (BacktestEngine.runAux rm strat bars seen s).initial_capital =
        s.initial_capital := by
  intro bars
  induction bars with
  | nil => intro seen s; rfl
  | cons b rest ih =>
      intro seen s
      rw [BacktestEngine.runAux, ih (seen ++ [b]) _, stepBar_initial]

/-- One simulation lifecycle step preserves the round-trip accounting
law. -/
theorem simStep_capitalLaw (rm : RiskManager) (sig : Signal) (close : ℚ)
    (now : ℤ) (s : SimulationEngine.SimState)
    (h : SimulationEngine.capitalLaw s) :
    SimulationEngine.capitalLaw (SimulationEngine.simStep rm sig close now s) := by
  unfold SimulationEngine.capitalLaw at h ⊢
  unfold SimulationEngine.simStep
  cases hp : s.current_position with
  | none =>
      cases hd : sig.direction with
      | none => exact h
      | some d =>
          dsimp only
          split_ifs <;> exact h
  | some pos =>
      dsimp only
      split_ifs <;>
        simp only [SimulationEngine.update_metrics, List.map_append, List.sum_append,
          List.map_cons, List.map_nil, List.sum_cons, List.sum_nil, add_zero, h] <;>
        ring

/-- One simulation update preserves the round-trip accounting law. -/
theorem process_update_capitalLaw (rm : RiskManager)
    (sigRes : Except String Signal) (close : ℚ) (now : ℤ) (hasCb : Bool)
    (s : SimulationEngine.SimState) (h : SimulationEngine.capitalLaw s) :
    SimulationEngine.capitalLaw
      (SimulationEngine.process_update rm sigRes close now hasCb s).1 := by
  cases hrun : s.running with
  | false =>
      rw [process_update_not_running rm sigRes close now hasCb s hrun]
      exact h
  | true =>
      cases sigRes with
      | error e =>
          rw [process_update_error rm e close now hasCb s hrun]
          exact h
      | ok sig =>
          rw [process_update_ok rm sig close now hasCb s hrun]
          exact simStep_capitalLaw rm sig close now s h

/-- A sequence of simulation updates preserves the round-trip
accounting law. -/
theorem processList_capitalLaw (rm : RiskManager) (hasCb : Bool) :
    ∀ (updates : List SimulationEngine.Update) (s : SimulationEngine.SimState),
      SimulationEngine.capitalLaw s →
      SimulationEngine.capitalLaw
        (SimulationEngine.processList rm hasCb updates s) := by
  intro updates
  induction updates with
  | nil => intro s h; exact h
  | cons u rest ih =>
      intro s h
      exact ih _ (process_update_capitalLaw rm u.sigRes u.close u.now hasCb s h)

/-- One simulation update does not change the initial capital. -/
theorem process_update_initial (rm : RiskManager)
    (sigRes : Except String Signal) (close : ℚ) (now : ℤ) (hasCb : Bool)
    (s : SimulationEngine.SimState) :
    (SimulationEngine.process_update rm sigRes close now hasCb s).1.initial_capital
      = s.initial_capital := by
  cases hrun : s.running with
  | false => rw [process_update_not_running rm sigRes close now hasCb s hrun]
  | true =>
      cases sigRes with
      | error e => rw [process_update_error rm e close now hasCb s hrun]
      | ok sig =>
          rw [process_update_ok rm sig close now hasCb s hrun]
          unfold SimulationEngine.simStep
          cases hp : s.current_position with
          | none =>
              cases hd : sig.direction with
              | none => rfl
              | some d =>
                  dsimp only
                  split_ifs <;> rfl
          | some pos =>
              dsimp only
              split_ifs <;> rfl

/-- A sequence of simulation updates does not change the initial
capital. -/
theorem processList_initial (rm : RiskManager) (hasCb : Bool) :
    ∀ (updates : List SimulationEngine.Update) (s : SimulationEngine.SimState),
      (SimulationEngine.processList rm hasCb updates s).initial_capital =
        s.initial_capital := by
  intro updates
  induction updates with
  | nil => intro s; rfl
  | cons u rest ih =>
      intro s
      rw [SimulationEngine.processList, ih, process_update_initial]

/-- Claim C3: in both engines, after any sequence of processed bars
(equivalently, after every recorded trade) the current capital equals
the initial capital plus the sum of realized pnl over the trades
recorded so far. -/
theorem C3_round_trip_accounting :
    (∀ (rm : RiskManager) (strat : List Bar → Signal) (bars : List Bar) (cap : ℚ),
      (BacktestEngine.runAux rm strat bars [] (BacktestEngine.initState cap)).current_capital
        = cap +
          ((BacktestEngine.runAux rm strat bars []
              (BacktestEngine.initState cap)).trades.map Trade.pnl).sum) ∧
    (∀ (rm : RiskManager) (hasCb : Bool) (updates : List SimulationEngine.Update)
        (cap : ℚ),
      (SimulationEngine.processList rm hasCb updates
          (SimulationEngine.start (SimulationEngine.initSim cap))).current_capital
        = cap +
          ((SimulationEngine.processList rm hasCb updates
              (SimulationEngine.start (SimulationEngine.initSim cap))).trades.map
            Trade.pnl).sum) := by
  constructor
  · intro rm strat bars cap
    have hlaw := runAux_capitalLaw rm strat bars [] (BacktestEngine.initState cap)
      (by simp [BacktestEngine.capitalLaw, BacktestEngine.initState])
    have hinit := runAux_initial rm strat bars [] (BacktestEngine.initState cap)
    unfold BacktestEngine.capitalLaw at hlaw
    rw [hlaw, hinit]
    rfl
  · intro rm hasCb updates cap
    have hlaw := processList_capitalLaw rm hasCb updates
      (SimulationEngine.start (SimulationEngine.initSim cap))
      (by simp [SimulationEngine.capitalLaw, SimulationEngine.start,
            SimulationEngine.initSim])
    have hinit := processList_initial rm hasCb updates
      (SimulationEngine.start (SimulationEngine.initSim cap))
    unfold SimulationEngine.capitalLaw at hlaw
    rw [hlaw, hinit]
    rfl

end CryptoTrading
